import Mathlib

/-!
Verification development for the Time-Guardian browser extension's
background logic (its converged, most complete revision).  The JavaScript
source is shallowly embedded: asynchronous chrome-API calls are modelled by
an `Oracle` of call outcomes, the mutable runtime (`state`, `isInitialized`,
`chrome.storage.local`, the single named platform alarm, presented
notifications) by an explicit `World` record threaded through every
function, and JavaScript exceptions by `Except` values.  The persisted
store is modelled as its merged-over-defaults view, which is the only view
the program ever reads.  JavaScript truthiness on nullable numbers and
strings is modelled explicitly (`jsTruthyInt`, `jsTruthyStr`).
-/

/-- Errors thrown by the embedded JavaScript (the message string). -/
abbrev JsError := String

/-- The settings record (DEFAULT_SETTINGS keys).  Numbers are modelled as
integers; nullable fields as options. -/
structure Settings where
  isActive : Bool
  soundEnabled : Bool
  nextNotificationTime : Option Int
  notificationInterval : Int
  notificationDuration : Int
  maxSnoozeMinutes : Int
  defaultSnoozeOptions : List Int
  apiKey : Option String
  defaultPrompt : String
  customPrompt : Option String
  retryAttempts : Nat
  retryDelay : Int
deriving Repr, DecidableEq

/-- DEFAULT_SETTINGS constant of the source. -/
def DEFAULT_SETTINGS : Settings where
  isActive := true
  soundEnabled := false
  nextNotificationTime := none
  notificationInterval := 3
  notificationDuration := 45000
  maxSnoozeMinutes := 180
  defaultSnoozeOptions := [5, 15]
  apiKey := none
  defaultPrompt := "Generate a short, friendly time reminder with emojis."
  customPrompt := none
  retryAttempts := 3
  retryDelay := 1000

/-- JavaScript truthiness of a nullable number: null and 0 are falsy. -/
def jsTruthyInt : Option Int → Bool
  | none => false
  | some v => v != 0

/-- JavaScript truthiness of a nullable string: null and the empty string
are falsy. -/
def jsTruthyStr : Option String → Bool
  | none => false
  | some s => s != ""

/-- A partial update object (the `updates` argument of
`StorageManager.updateSettings`, and the payload of
`chrome.storage.local.set`): absent fields are left untouched. -/
structure SettingsPatch where
  isActive : Option Bool := none
  soundEnabled : Option Bool := none
  nextNotificationTime : Option (Option Int) := none
  notificationInterval : Option Int := none
  defaultSnoozeOptions : Option (List Int) := none
  apiKey : Option (Option String) := none
  customPrompt : Option (Option String) := none
deriving Repr, DecidableEq

/-- Object spread `\x7b...s, ...p\x7d`: fields present in the patch win. -/
def applyPatch (s : Settings) (p : SettingsPatch) : Settings where
  isActive := p.isActive.getD s.isActive
  soundEnabled := p.soundEnabled.getD s.soundEnabled
  nextNotificationTime := p.nextNotificationTime.getD s.nextNotificationTime
  notificationInterval := p.notificationInterval.getD s.notificationInterval
  notificationDuration := s.notificationDuration
  maxSnoozeMinutes := s.maxSnoozeMinutes
  defaultSnoozeOptions := p.defaultSnoozeOptions.getD s.defaultSnoozeOptions
  apiKey := p.apiKey.getD s.apiKey
  defaultPrompt := s.defaultPrompt
  customPrompt := p.customPrompt.getD s.customPrompt
  retryAttempts := s.retryAttempts
  retryDelay := s.retryDelay

/-- `validateSettings` (source lines 32-57).  The required-field presence
check always passes in this typed model (the merged record always carries
every key).  The `typeof === number` checks likewise always pass.  The
remaining checks are translated literally: the interval must be a positive
number not exceeding `maxSnoozeMinutes`, and a truthy `nextNotificationTime`
must not be negative. -/
def validateSettings (s : Settings) : Except JsError Unit :=
  if ¬ (s.notificationInterval > 0) ∨ s.notificationInterval > s.maxSnoozeMinutes then
    Except.error "Invalid notification interval"
  else if jsTruthyInt s.nextNotificationTime ∧ s.nextNotificationTime.getD 0 < 0 then
    Except.error "Invalid next notification time"
  else
    Except.ok ()

/-- Whether an embedded computation threw. -/
def isErr {α : Type} : Except JsError α → Bool
  | Except.error _ => true
  | Except.ok _ => false

/-- A single platform alarm (chrome.alarms): its scheduled fire time and
repeat period in minutes. -/
structure AlarmInfo where
  scheduledTime : Int
  periodInMinutes : Int
deriving Repr, DecidableEq

/-- The mutable runtime of the background process: the persisted store
(modelled as its merged-over-defaults view), the in-memory mirror `state`,
the `isInitialized` flag, the single named platform alarm, the Gemini
model handle and persisted `geminiInitialized` flag, and the notifications
presented so far (message text and snooze-button labels). -/
structure World where
  store : Settings
  mem : Settings
  isInitialized : Bool
  alarm : Option AlarmInfo
  geminiModel : Bool
  geminiFlag : Option Bool
  shown : List (String × List Int)
deriving Repr, DecidableEq

/-- Outcomes of the external calls a single handler run performs.  A
`false` flag means every attempt of the corresponding chrome call rejects
(`withRetry` wrappers in the source make all attempts of one call, so a
call that can eventually succeed is modelled by a `true` flag).  `Date.now`
is frozen for the run.  `tyErrMsg s` is the engine's TypeError message when
the dispatcher invokes the Object.prototype member named `s` as a handler
(the message text is engine-produced, hence environment data). -/
structure Oracle where
  now : Int
  storeGetOk : Bool
  storeSetOk : Bool
  storeClearOk : Bool
  alarmCreateOk : Bool
  notifyOk : Bool
  online : Bool
  validateKeyOk : Bool
  geminiSetOk : Bool
  tabInfo : Option (String × String)
  genResult : String → Option String
  timeString : String
  tyErrMsg : String → String

/-- `chrome.storage.local.set(patch)` wrapped in `withRetry`: on success
the persisted view is patched, on failure (all attempts rejected) it is
untouched and the last error is rethrown. -/
def storageSetRetry (o : Oracle) (w : World) (p : SettingsPatch) :
    Except JsError Unit × World :=
  if o.storeSetOk then (Except.ok (), { w with store := applyPatch w.store p })
  else (Except.error "storage set failed", w)

/-- `StorageManager.updateSettings` (source lines 130-145): merge the
update over the mirror, validate the merged record, persist the raw patch
with retry, then commit the mirror.  Any throw is caught and reported as
`false`; in that case neither the mirror nor the store was changed by the
failing step. -/
def StorageManager.updateSettings (o : Oracle) (w : World) (upd : SettingsPatch) :
    Bool × World :=
  let newState := applyPatch w.mem upd
  if isErr (validateSettings newState) then (false, w)
  else
    match storageSetRetry o w upd with
    | (Except.error _, w1) => (false, w1)
    | (Except.ok _, w1) => (true, { w1 with mem := newState })

/-- `StorageManager.reset` (source lines 157-168): clear the store, write
the defaults back, reset the mirror and the initialization flag.  A throw
from either storage call is caught and reported as `false`, leaving the
steps after the throw unperformed.  In the merged view a cleared store
reads as the defaults. -/
def StorageManager.reset (o : Oracle) (w : World) : Bool × World :=
  if ¬ o.storeClearOk then (false, w)
  else
    let w1 := { w with store := DEFAULT_SETTINGS }
    if ¬ o.storeSetOk then (false, w1)
    else (true, { w1 with mem := DEFAULT_SETTINGS, isInitialized := false })

/-- Trace of one `withRetry` run: the final outcome (an `Except.error none`
models rethrowing the undefined initial `lastError`), how many times the
operation was invoked, and the sleep durations performed between attempts. -/
structure RetryTrace (α : Type) where
  result : Except (Option JsError) α
  calls : Nat
  sleeps : List Int
deriving Repr

/-- Loop body of `withRetry` (source lines 60-78).  `op k` is the outcome
of the k-th invocation of the operation (the operation may be stateful, so
outcomes are indexed by attempt number), `bd` the base delay
(`state.retryDelay`), `a` the current attempt index and `r` the remaining
iterations.  The guard `attempt < retryCount - 1` of the source is exactly
`r ≠ 1` here. -/
def withRetryGo {α : Type} (op : Nat → Except JsError α) (bd : Int) :
    Nat → Nat → Option JsError → RetryTrace α
  | _, 0, last => ⟨Except.error last, 0, []⟩
  | a, r + 1, _ =>
    match op a with
    | Except.ok v => ⟨Except.ok v, 1, []⟩
    | Except.error e =>
      if r = 0 then ⟨Except.error (some e), 1, []⟩
      else
        let t := withRetryGo op bd (a + 1) r (some e)
        ⟨t.result, t.calls + 1, bd * 2 ^ a :: t.sleeps⟩

/-- `withRetry(operation, retryCount)` with an instrumented trace. -/
def withRetryRun {α : Type} (op : Nat → Except JsError α) (bd : Int)
    (retryCount : Nat) : RetryTrace α :=
  withRetryGo op bd 0 retryCount none

/-- `GeminiManager.validateApiKey` (source lines 178-193): falsy or
blank keys are invalid; otherwise one test generation call decides, any
exception counting as invalid. -/
def GeminiManager.validateApiKey (o : Oracle) (apiKey : Option String) : Bool :=
  match apiKey with
  | none => false
  | some k => if k.trim = "" then false else o.validateKeyOk

/-- `GeminiManager.init` (source lines 195-228): falsy or blank key clears
the model handle and returns false; otherwise the client is constructed
and the persisted `geminiInitialized` flag is written.  A throw while
persisting the flag is caught: the handle is cleared and the flag written
false (the doubly-failing flag write is not modelled; no caller of `init`
lets its rejection escape uncaught).  The in-flight-promise collapsing is
concurrency and outside this sequential model. -/
def GeminiManager.init (o : Oracle) (w : World) (apiKey : Option String) :
    Bool × World :=
  match apiKey with
  | none => (false, { w with geminiModel := false })
  | some k =>
    if k.trim = "" then (false, { w with geminiModel := false })
    else if o.geminiSetOk then
      (true, { w with geminiModel := true, geminiFlag := some true })
    else
      (false, { w with geminiModel := false, geminiFlag := some false })

/-- `AlarmManager.cleanup` (source lines 355-377): clear every alarm under
the reserved name, then persist `nextNotificationTime: null` through
`updateSettings`, reporting that persist step's outcome.  No step of the
body throws in this model, so the catch branch is unreachable. -/
def AlarmManager.cleanup (o : Oracle) (w : World) : Bool × World :=
  let w1 := { w with alarm := none }
  let r := StorageManager.updateSettings o w1 { nextNotificationTime := some none }
  (r.1, r.2)

/-- `AlarmManager.setup(minutes, immediately, nextTime)` (source lines
300-353).  Guards in source order: inactive state, interval out of
`(0, maxSnoozeMinutes]`, and a truthy `nextTime` not strictly in the
future.  Then `cleanup()` runs unconditionally (its result is ignored),
the alarm is created with retry, `nextNotificationTime` is persisted, and
the final `verifySchedule()` call only logs.  A throw from the retried
create call is caught by the outer catch and reported as `false`. -/
def AlarmManager.setup (o : Oracle) (w : World) (minutes : Int)
    (immediately : Bool) (nextTime : Option Int) : Bool × World :=
  if ¬ w.mem.isActive then (false, w)
  else if minutes ≤ 0 ∨ minutes > w.mem.maxSnoozeMinutes then (false, w)
  else if jsTruthyInt nextTime ∧ nextTime.getD 0 ≤ o.now then (false, w)
  else
    let w1 := (AlarmManager.cleanup o w).2
    let actualNextTime :=
      if jsTruthyInt nextTime then nextTime.getD 0
      else if immediately then o.now
      else o.now + minutes * 60000
    if ¬ o.alarmCreateOk then (false, w1)
    else
      let w2 := { w1 with alarm := some ⟨actualNextTime, minutes⟩ }
      let r := StorageManager.updateSettings o w2
        { nextNotificationTime := some (some actualNextTime) }
      if r.1 then (true, r.2) else (false, r.2)

/-- `AlarmManager.setup()` with its default arguments (`minutes` defaults
to the mirror's `notificationInterval`, evaluated at call time). -/
def AlarmManager.setupDefault (o : Oracle) (w : World) : Bool × World :=
  AlarmManager.setup o w w.mem.notificationInterval false none

/-- `NotificationManager.generateFallbackMessage` (source lines 455-468).
The emoji prefixes of the template are omitted from the string constants;
everything else is translated literally (`Math.floor` on the positive
`timeLeft` is floor division). -/
def NotificationManager.generateFallbackMessage (o : Oracle) (w : World)
    (timeString : String) : String :=
  let nextTimeStr :=
    match w.mem.nextNotificationTime with
    | some t =>
      if t ≠ 0 then
        let timeLeft := t - o.now
        if timeLeft > 0 then
          let minutesLeft := timeLeft.fdiv 60000
          let secondsLeft := (timeLeft.emod 60000).fdiv 1000
          if minutesLeft > 0 then
            toString minutesLeft ++ "m " ++ toString secondsLeft ++ "s"
          else toString secondsLeft ++ "s"
        else toString w.mem.notificationInterval ++ " minutes"
      else toString w.mem.notificationInterval ++ " minutes"
    | none => toString w.mem.notificationInterval ++ " minutes"
  "Time Check: " ++ timeString ++ "\nNext reminder in " ++ nextTimeStr ++
    "\nClick buttons below to snooze"

/-- `GeminiManager.generateMessage` (source lines 230-251): null model
handle yields null; otherwise the prompt is built from the custom or
default template and sent with retry; a throw or structurally invalid
response triggers `handleGenerationError` (an auto-dismissed error
notification) and yields null. -/
def GeminiManager.generateMessage (o : Oracle) (w : World)
    (url title timeString : String) : Option String × World :=
  if ¬ w.geminiModel then (none, w)
  else
    let promptTemplate := "Based on the webpage title \"" ++ title ++
      "\", URL \"" ++ url ++ "\" and current time \"" ++ timeString ++ "\", " ++
      (match w.mem.customPrompt with
       | some c => if c ≠ "" then c else w.mem.defaultPrompt
       | none => w.mem.defaultPrompt)
    match o.genResult promptTemplate with
    | some text => (some text, w)
    | none =>
      let w1 :=
        if o.notifyOk then { w with shown := w.shown ++ [("generation-error", [])] }
        else w
      (none, w1)

/-- `NotificationManager.show` (source lines 410-453): no-op when
inactive; otherwise read the active tab (a failed read is caught and
leaves no tab), ask Gemini when the tab has a truthy url and title and the
model handle is set, fall back to the deterministic template on a falsy
message, then create the notification (with one snooze button per
`defaultSnoozeOptions` entry) with retry; a create failure is caught.
`show` never throws. -/
def NotificationManager.show (o : Oracle) (w : World) : World :=
  if ¬ w.mem.isActive then w
  else
    let timeString := o.timeString
    let r :=
      match o.tabInfo with
      | some (url, title) =>
        if url ≠ "" ∧ title ≠ "" ∧ w.geminiModel then
          GeminiManager.generateMessage o w url title timeString
        else (none, w)
      | none => (none, w)
    let message :=
      match r.1 with
      | some t =>
        if t = "" then NotificationManager.generateFallbackMessage o r.2 timeString
        else t
      | none => NotificationManager.generateFallbackMessage o r.2 timeString
    if o.notifyOk then
      { r.2 with shown := r.2.shown ++ [(message, r.2.mem.defaultSnoozeOptions)] }
    else r.2

/-- `NotificationManager.snooze(minutes)` (source lines 479-518): reject
`minutes > maxSnoozeMinutes`; otherwise compute the snooze target time and
the re-sorted snooze options pair, persist both through `updateSettings`
(throwing, hence returning false, if that fails), then re-arm through
`AlarmManager.setup` under `withRetry` (`setup` reports failure by a false
result, not a throw, so the first attempt decides), throwing, hence
returning false, if the setup reported failure. -/
def NotificationManager.snooze (o : Oracle) (w : World) (minutes : Int) :
    Bool × World :=
  if minutes > w.mem.maxSnoozeMinutes then (false, w)
  else
    let nextTime := o.now + minutes * 60000
    let prevUpper := w.mem.defaultSnoozeOptions.getD 1 0
    let newSnoozeOptions := [min minutes prevUpper, max minutes prevUpper]
    let r := StorageManager.updateSettings o w
      { defaultSnoozeOptions := some newSnoozeOptions
        nextNotificationTime := some (some nextTime) }
    if ¬ r.1 then (false, r.2)
    else
      let r2 := AlarmManager.setup o r.2 minutes false (some nextTime)
      if ¬ r2.1 then (false, r2.2)
      else (true, r2.2)

/-- `StorageManager.initialize` (source lines 82-128; renamed `initStorage`
here).  Already-initialized processes return immediately.  Otherwise the
persisted record is read with retry (this model's store is already the
merged-over-defaults view), validated, and — when `nextNotificationTime`
is falsy while active — given a derived next time; the mirror is
committed, Gemini is initialized when a truthy key is stored, and an
active record arms the alarm (that setup result is ignored).  A throw
anywhere in the body resets the mirror to the defaults, clears the
initialized flag, and best-effort rewrites the store with the defaults (a
cleared store already reads as the defaults in the merged view), returning
false. -/
def StorageManager.initStorage (o : Oracle) (w : World) : Bool × World :=
  if w.isInitialized then (true, w)
  else
    let wf := { w with mem := DEFAULT_SETTINGS, isInitialized := false }
    let wfail := if o.storeClearOk then { wf with store := DEFAULT_SETTINGS } else wf
    if ¬ o.storeGetOk then (false, wfail)
    else
      let newState0 := w.store
      if isErr (validateSettings newState0) then (false, wfail)
      else
        let newState :=
          if ¬ jsTruthyInt newState0.nextNotificationTime ∧ newState0.isActive then
            { newState0 with
                nextNotificationTime := some (o.now + newState0.notificationInterval * 60000) }
          else newState0
        let w1 := { w with mem := newState, isInitialized := true }
        let w2 :=
          if jsTruthyStr newState.apiKey then (GeminiManager.init o w1 newState.apiKey).2
          else w1
        if newState.isActive then (true, (AlarmManager.setupDefault o w2).2)
        else (true, w2)

/-- An incoming UI request: one constructor per handler key of the
dispatcher's handler table, plus `unknown` for any other action name. -/
inductive Request where
  | snooze (minutes : Int)
  | notification (minutes : Int)
  | verifyAlarm (currentTime : Int)
  | getAlarmStatus
  | saveApiKey (apiKey : Option String)
  | toggle (isActive : Bool)
  | updateSound (enabled : Bool)
  | getSettings
  | saveCustomPrompt (customPrompt : Option String)
  | setNextAlert (minutes : Int)
  | unknown (action : String)
deriving Repr, DecidableEq

/-- The uniform response envelope: `success` plus the optional fields the
individual handlers attach. -/
structure Response where
  success : Bool
  error : Option String := none
  needsUpdate : Option Bool := none
  correctTime : Option (Option Int) := none
  nextNotificationTime : Option (Option Int) := none
  isActive : Option Bool := none
  settings : Option Settings := none
deriving Repr, DecidableEq

/-- The `snooze` handler (source lines 532-555): range guard against
`maxSnoozeMinutes`, then `NotificationManager.snooze`, whose boolean
outcome picks the envelope.  `snooze` never throws, so the catch branch is
unreachable. -/
def snoozeHandler (o : Oracle) (w : World) (minutes : Int) : Response × World :=
  if minutes ≤ w.mem.maxSnoozeMinutes then
    let r := NotificationManager.snooze o w minutes
    if r.1 then ({ success := true }, r.2)
    else ({ success := false, error := some "Failed to snooze notification" }, r.2)
  else ({ success := false, error := some "Snooze duration exceeds maximum allowed time" }, w)

/-- The `notification` handler (source lines 557-591): range guard, then
persist the new interval and derived next time, re-arm with retry, and
convert the explicit throw on a failed re-arm into the envelope via the
handler's catch. -/
def notificationHandler (o : Oracle) (w : World) (minutes : Int) : Response × World :=
  if minutes ≤ w.mem.maxSnoozeMinutes then
    let upd : SettingsPatch :=
      { notificationInterval := some minutes
        nextNotificationTime := some (some (o.now + minutes * 60000)) }
    let r := StorageManager.updateSettings o w upd
    if r.1 then
      let r2 := AlarmManager.setup o r.2 minutes false none
      if r2.1 then ({ success := true }, r2.2)
      else
        ({ success := false
           error := some "Failed to setup notifications: Failed to setup notification alarm" },
         r2.2)
    else ({ success := false, error := some "Failed to save notification interval" }, r.2)
  else ({ success := false, error := some "Interval exceeds maximum allowed time" }, w)

/-- `Math.ceil` of an integer quotient with positive divisor. -/
def ceilDiv (a b : Int) : Int := -((-a).fdiv b)

/-- The `verifyAlarm` handler (source lines 593-640; the `currentTime`
parameter is destructured but never used).  Missing alarm: when the mirror
is active with a truthy `nextNotificationTime`, re-create the alarm at
that time (the setup result is ignored) and report a correction; otherwise
just report a correction with a null time.  Existing alarm: a drift beyond
1000 ms makes the handler copy the alarm's scheduled time into the mirror
and the store (a null mirror time coerces to 0 in the subtraction) and
report the correction; otherwise no update is needed.  No step throws in
this model, so the catch branch is unreachable. -/
def verifyAlarmHandler (o : Oracle) (w : World) : Response × World :=
  match w.alarm with
  | none =>
    if w.mem.isActive ∧ jsTruthyInt w.mem.nextNotificationTime then
      let nnt := w.mem.nextNotificationTime.getD 0
      let minutesLeft := max 1 (ceilDiv (nnt - o.now) 60000)
      let r := AlarmManager.setup o w minutesLeft false (some nnt)
      ({ success := true, needsUpdate := some true, correctTime := some (some nnt) }, r.2)
    else
      ({ success := true, needsUpdate := some true, correctTime := some none }, w)
  | some alarm =>
    let timeDiff := |alarm.scheduledTime - w.mem.nextNotificationTime.getD 0|
    if timeDiff > 1000 then
      let w1 := { w with mem := { w.mem with nextNotificationTime := some alarm.scheduledTime } }
      let r := StorageManager.updateSettings o w1
        { nextNotificationTime := some (some alarm.scheduledTime) }
      ({ success := true, needsUpdate := some true
         correctTime := some (some alarm.scheduledTime) }, r.2)
    else ({ success := true, needsUpdate := some false }, w)

/-- The `getAlarmStatus` handler (source lines 642-667): a missing alarm
while active is re-created at `now + interval` (setup result ignored), the
mirror and store are updated, and the mirror's time and active flag are
reported.  No step throws in this model, so the catch branch is
unreachable. -/
def getAlarmStatusHandler (o : Oracle) (w : World) : Response × World :=
  let w1 :=
    match w.alarm with
    | none =>
      if w.mem.isActive then
        let nextTime := o.now + w.mem.notificationInterval * 60000
        let r := AlarmManager.setup o w w.mem.notificationInterval false (some nextTime)
        let wa := { r.2 with mem := { r.2.mem with nextNotificationTime := some nextTime } }
        (StorageManager.updateSettings o wa
          { nextNotificationTime := some (some nextTime) }).2
      else w
    | some _ => w
  ({ success := true, nextNotificationTime := some w1.mem.nextNotificationTime
     isActive := some w1.mem.isActive }, w1)

/-- The `saveApiKey` handler (source lines 669-716): falsy/blank key,
offline state and a failed validation call each return their own failure
envelope; then the key is persisted and the Gemini client initialized,
each failure again with its own envelope. -/
def saveApiKeyHandler (o : Oracle) (w : World) (apiKey : Option String) :
    Response × World :=
  if ¬ jsTruthyStr (apiKey.map String.trim) then
    ({ success := false, error := some "Please enter your Gemini API key" }, w)
  else if ¬ o.online then
    ({ success := false
       error := some "No internet connection. Please check your network and try again" }, w)
  else if ¬ GeminiManager.validateApiKey o apiKey then
    ({ success := false
       error := some "Invalid API key. Please check if you have copied the correct Gemini API key" }, w)
  else
    let r := StorageManager.updateSettings o w { apiKey := some apiKey }
    if r.1 then
      let r2 := GeminiManager.init o r.2 apiKey
      if ¬ r2.1 then
        ({ success := false
           error := some "Could not connect to Gemini API. Please check your internet connection" }, r2.2)
      else ({ success := true }, r2.2)
    else ({ success := false, error := some "Could not save API key. Please try again" }, r.2)

/-- The `toggle` handler (source lines 718-758): persist the new active
flag; on success either re-arm immediately (result unchecked — the inner
catch only guards throws, and `setup` reports failure by result) or clean
up, answering success either way; a failed persist yields the failure
envelope. -/
def toggleHandler (o : Oracle) (w : World) (isActive : Bool) : Response × World :=
  let r := StorageManager.updateSettings o w { isActive := some isActive }
  if r.1 then
    if isActive then
      let r2 := AlarmManager.setup o r.2 r.2.mem.notificationInterval true none
      ({ success := true }, r2.2)
    else
      let r2 := AlarmManager.cleanup o r.2
      ({ success := true }, r2.2)
  else ({ success := false, error := some "Failed to update notification status" }, r.2)

/-- The `updateSound` handler (source lines 760-780). -/
def updateSoundHandler (o : Oracle) (w : World) (enabled : Bool) : Response × World :=
  let r := StorageManager.updateSettings o w { soundEnabled := some enabled }
  if r.1 then ({ success := true }, r.2)
  else ({ success := false, error := some "Failed to update sound settings" }, r.2)

/-- The `getSettings` handler (source lines 782-798): lazily hydrate, then
report the mirror (even when hydration just failed and the mirror holds
the defaults). -/
def getSettingsHandler (o : Oracle) (w : World) : Response × World :=
  let w1 := if w.isInitialized then w else (StorageManager.initStorage o w).2
  ({ success := true, settings := some w1.mem }, w1)

/-- The `saveCustomPrompt` handler (source lines 800-818). -/
def saveCustomPromptHandler (o : Oracle) (w : World) (customPrompt : Option String) :
    Response × World :=
  let r := StorageManager.updateSettings o w { customPrompt := some customPrompt }
  if r.1 then ({ success := true }, r.2)
  else ({ success := false, error := some "Failed to save custom prompt" }, r.2)

/-- The `setNextAlert` handler (source lines 820-874): inactive and
over-maximum guards, a (vacuous for positive minutes) past-time guard,
then persist the derived time and re-sorted snooze options, re-arm with
retry, and convert the explicit throw on a failed re-arm into the envelope
via the handler's catch. -/
def setNextAlertHandler (o : Oracle) (w : World) (minutes : Int) : Response × World :=
  if ¬ w.mem.isActive then
    ({ success := false, error := some "Please enable notifications first" }, w)
  else if minutes > w.mem.maxSnoozeMinutes then
    ({ success := false
       error := some ("Time cannot exceed " ++ toString w.mem.maxSnoozeMinutes ++ " minutes") }, w)
  else
    let nextTime := o.now + minutes * 60000
    if nextTime ≤ o.now then
      ({ success := false, error := some "Cannot set notification time in the past" }, w)
    else
      let prevUpper := w.mem.defaultSnoozeOptions.getD 1 0
      let newSnoozeOptions := [min minutes prevUpper, max minutes prevUpper]
      let r := StorageManager.updateSettings o w
        { nextNotificationTime := some (some nextTime)
          defaultSnoozeOptions := some newSnoozeOptions }
      if r.1 then
        let r2 := AlarmManager.setup o r.2 minutes false (some nextTime)
        if r2.1 then ({ success := true }, r2.2)
        else
          ({ success := false
             error := some "Failed to set next alert: Failed to setup next alert" }, r2.2)
      else ({ success := false, error := some "Failed to save next alert time" }, r.2)

/-- What the dispatcher passes to `sendResponse`: normally a response
envelope, but the source's `handlers[request.action]` lookup on the
handlers object literal can also find an inherited `Object.prototype`
member, in which case the raw value the inherited function returns is sent
instead — the string tag of undefined for `toString`, and the request
object itself for `constructor` (calling `Object` on an object returns
it). -/
inductive Reply where
  | envelope (r : Response)
  | jsString (s : String)
  | echoed (req : Request)
deriving Repr, DecidableEq

/-- The ten own keys of the dispatcher's handler table; `Request.unknown a`
faithfully represents a request only when `a` is none of these (those
actions are represented by their own constructors). -/
def handlerKeys : List String :=
  ["snooze", "notification", "verifyAlarm", "getAlarmStatus", "saveApiKey",
   "toggle", "updateSound", "getSettings", "saveCustomPrompt", "setNextAlert"]

/-- `Object.prototype` members (the handlers object literal's prototype)
whose invocation as `handler(request)` — strict-mode module code, so with
`this = undefined` — throws a TypeError: the methods that begin with
ToObject(this) or a method lookup on the this value, and `__proto__`,
whose accessor yields the non-callable `Object.prototype` itself. -/
def inheritedThrowingNames : List String :=
  ["toLocaleString", "valueOf", "hasOwnProperty", "isPrototypeOf",
   "propertyIsEnumerable", "__defineGetter__", "__defineSetter__",
   "__lookupGetter__", "__lookupSetter__", "__proto__"]

/-- Every `Object.prototype` member name the `handlers[request.action]`
lookup can reach for a non-own action name. -/
def objectProtoMemberNames : List String :=
  "toString" :: "constructor" :: inheritedThrowingNames

/-- `MessageHandler.handle` (source lines 526-896): lazily hydrate (the
hydration result is not checked) and dispatch on the action name.  Every
handler catches its own internal throws, so for the ten table keys the
dispatcher's outer catch is unreachable.  For any other action name the
source's `handlers[request.action]` is a JavaScript property lookup on an
object literal, which falls through to `Object.prototype`: `toString`,
called with `this = undefined` (module code is strict), returns the bare
string `[object Undefined]`; `constructor` is `Object`, which returns the
request object itself, echoed to `sendResponse`; the remaining inherited
members throw a TypeError when invoked, which the outer catch converts to
an `Internal error: ...` envelope; only a name absent from the table and
from `Object.prototype` makes the lookup falsy and yields the structured
`Unknown action requested` failure. -/
def MessageHandler.handle (o : Oracle) (w : World) (req : Request) : Reply × World :=
  let w0 := if w.isInitialized then w else (StorageManager.initStorage o w).2
  match req with
  | Request.snooze m =>
    let r := snoozeHandler o w0 m; (Reply.envelope r.1, r.2)
  | Request.notification m =>
    let r := notificationHandler o w0 m; (Reply.envelope r.1, r.2)
  | Request.verifyAlarm _ =>
    let r := verifyAlarmHandler o w0; (Reply.envelope r.1, r.2)
  | Request.getAlarmStatus =>
    let r := getAlarmStatusHandler o w0; (Reply.envelope r.1, r.2)
  | Request.saveApiKey k =>
    let r := saveApiKeyHandler o w0 k; (Reply.envelope r.1, r.2)
  | Request.toggle b =>
    let r := toggleHandler o w0 b; (Reply.envelope r.1, r.2)
  | Request.updateSound b =>
    let r := updateSoundHandler o w0 b; (Reply.envelope r.1, r.2)
  | Request.getSettings =>
    let r := getSettingsHandler o w0; (Reply.envelope r.1, r.2)
  | Request.saveCustomPrompt p =>
    let r := saveCustomPromptHandler o w0 p; (Reply.envelope r.1, r.2)
  | Request.setNextAlert m =>
    let r := setNextAlertHandler o w0 m; (Reply.envelope r.1, r.2)
  | Request.unknown a =>
    if a = "toString" then (Reply.jsString "[object Undefined]", w0)
    else if a = "constructor" then (Reply.echoed (Request.unknown a), w0)
    else if a ∈ inheritedThrowingNames then
      (Reply.envelope
        { success := false, error := some ("Internal error: " ++ o.tyErrMsg a) }, w0)
    else
      (Reply.envelope
        { success := false, error := some "Unknown action requested" }, w0)

/-- Steps of the `chrome.alarms.onAlarm` listener, for stating in which
order they were performed: hydration check, notification, cleanup, re-arm,
and the three recovery steps. -/
inductive Ev where
  | ensure
  | notify
  | cleanupE
  | setupE
  | resetE
  | reinitE
  | rearmE
deriving Repr, DecidableEq

/-- The last-resort recovery of the fire chain's catch (source lines
950-957): reset the settings record to the defaults, re-initialize, and
re-arm; each result is ignored and nothing here throws, so the nested
catch is unreachable. -/
def recoverW (o : Oracle) (w : World) : World :=
  let r1 := StorageManager.reset o w
  let r2 := StorageManager.initStorage o r1.2
  (AlarmManager.setupDefault o r2.2).2

/-- The `chrome.alarms.onAlarm` listener (source lines 923-960), with the
trace of performed steps.  The chain: ensure initialization (throwing if
it fails), show the notification with retry (`show` never throws), clean
up the old alarm (result ignored), re-arm with retry (throwing if the
setup reports failure).  Any throw falls into the recovery path. -/
def onAlarmFired (o : Oracle) (w : World) : World × List Ev :=
  let h := if w.isInitialized then (true, w) else StorageManager.initStorage o w
  if ¬ h.1 then
    (recoverW o h.2, [Ev.ensure, Ev.resetE, Ev.reinitE, Ev.rearmE])
  else
    let w2 := NotificationManager.show o h.2
    let w3 := (AlarmManager.cleanup o w2).2
    let r := AlarmManager.setupDefault o w3
    if r.1 then (r.2, [Ev.ensure, Ev.notify, Ev.cleanupE, Ev.setupE])
    else
      (recoverW o r.2,
       [Ev.ensure, Ev.notify, Ev.cleanupE, Ev.setupE, Ev.resetE, Ev.reinitE, Ev.rearmE])

/-- Exact characterization of `validateSettings`: it accepts a record iff
the interval is positive and bounded by `maxSnoozeMinutes` and any
non-null `nextNotificationTime` is non-negative (a zero value is falsy in
JavaScript and skips the negativity check, and zero is non-negative
anyway).  No other field is inspected. -/
theorem validateSettings_ok_iff (s : Settings) :
    validateSettings s = Except.ok () ↔
      (0 < s.notificationInterval ∧ s.notificationInterval ≤ s.maxSnoozeMinutes ∧
       ∀ v : Int, s.nextNotificationTime = some v → 0 ≤ v) := by
  rcases hn : s.nextNotificationTime with _ | v <;>
    simp only [validateSettings, hn, jsTruthyInt, Option.getD_some, Option.getD_none] <;>
    split_ifs with h1 h2 <;>
    constructor <;> intro h <;> simp_all <;> omega

/-- `isErr` form of `validateSettings_ok_iff`. -/
theorem validateSettings_isErr_iff (s : Settings) :
    isErr (validateSettings s) = false ↔
      (0 < s.notificationInterval ∧ s.notificationInterval ≤ s.maxSnoozeMinutes ∧
       ∀ v : Int, s.nextNotificationTime = some v → 0 ≤ v) := by
  rw [← validateSettings_ok_iff]
  cases h : validateSettings s with
  | ok u => cases u; simp [isErr]
  | error e => simp [isErr]

/-- An all-succeeding oracle for concrete runs. -/
def okOracle : Oracle where
  now := 1000000
  storeGetOk := true
  storeSetOk := true
  storeClearOk := true
  alarmCreateOk := true
  notifyOk := true
  online := true
  validateKeyOk := true
  geminiSetOk := true
  tabInfo := none
  genResult := fun _ => none
  timeString := "12:00"
  tyErrMsg := fun _ => "Cannot convert undefined or null to object"

/-- A hydrated world whose persisted and mirrored records are the defaults
with a pending `nextNotificationTime` of 777777, and no platform alarm. -/
def baseWorld : World where
  store := { DEFAULT_SETTINGS with nextNotificationTime := some 777777 }
  mem := { DEFAULT_SETTINGS with nextNotificationTime := some 777777 }
  isInitialized := true
  alarm := none
  geminiModel := false
  geminiFlag := none
  shown := []

/-- A settings record violating the §3 snooze-options invariant: two
entries but not sorted ascending (minimum not first). -/
def badOptionsSettings : Settings :=
  { DEFAULT_SETTINGS with defaultSnoozeOptions := [15, 5] }

/-- C7 counterexample: `validateSettings` accepts a record whose
`defaultSnoozeOptions` is not sorted ascending (and it equally accepts any
other shape of that field), so validation does not reject every record
violating the §3 invariants. -/
theorem validateSettings_accepts_unsorted_options :
    validateSettings badOptionsSettings = Except.ok () ∧
      badOptionsSettings.defaultSnoozeOptions = [15, 5] := ⟨rfl, rfl⟩

/-- C7 (amended): settings validation, as applied by initialization and
`updateSettings`, rejects a merged record exactly when the interval
invariant `0 < notificationInterval <= maxSnoozeMinutes` fails or a
non-null `nextNotificationTime` is negative; it never inspects
`defaultSnoozeOptions` (or any other field), so the §3 invariants about
the snooze-options pair are not enforced by validation. -/
theorem validateSettings_rejects_exactly (s : Settings) :
    isErr (validateSettings s) = true ↔
      ¬ (0 < s.notificationInterval ∧ s.notificationInterval ≤ s.maxSnoozeMinutes ∧
         ∀ v : Int, s.nextNotificationTime = some v → 0 ≤ v) := by
  rw [← validateSettings_isErr_iff]
  cases isErr (validateSettings s) <;> simp

/-- C7 amended witness: a record with interval 0 is rejected. -/
theorem validateSettings_rejects_exactly_witness :
    isErr (validateSettings { DEFAULT_SETTINGS with notificationInterval := 0 }) = true :=
  (validateSettings_rejects_exactly
    { DEFAULT_SETTINGS with notificationInterval := 0 }).mpr (by decide)

/-- C6: an `updateSettings` call whose merged result fails validation
returns failure and leaves the whole world — in particular both the
in-memory mirror and the persisted store — exactly as it was; and the
concrete call `updateSettings(\x7bnotificationInterval: 0\x7d)` always
fails that way, for every oracle and world. -/
theorem updateSettings_invalid_is_noop (o : Oracle) (w : World) (upd : SettingsPatch)
    (h : isErr (validateSettings (applyPatch w.mem upd)) = true) :
    StorageManager.updateSettings o w upd = (false, w) ∧
      StorageManager.updateSettings o w { notificationInterval := some 0 } = (false, w) := by
  constructor
  · simp [StorageManager.updateSettings, h]
  · have h0 : isErr (validateSettings (applyPatch w.mem { notificationInterval := some 0 })) = true := by
      simp [validateSettings, isErr, applyPatch]
    simp [StorageManager.updateSettings, h0]

/-- C6 witness: rejecting an interval of 0 on the concrete base world. -/
theorem updateSettings_invalid_is_noop_witness :
    StorageManager.updateSettings okOracle baseWorld { notificationInterval := some 0 } =
      (false, baseWorld) :=
  (updateSettings_invalid_is_noop okOracle baseWorld { notificationInterval := some 0 }
    (by decide)).2

/-- C1 counterexample: with a previously persisted
`nextNotificationTime = 777777`, a `setup` call in which every storage
write succeeds but `chrome.alarms.create` fails (every retry rejected)
returns failure with the persisted value already cleared to null — the
unconditional `cleanup()` that `setup` runs before creating the platform
alarm persisted that null — so the pre-call value does not remain in
place for this failure class. -/
theorem setup_create_failure_clears_persisted :
    baseWorld.store.nextNotificationTime = some 777777 ∧
      (AlarmManager.setup { okOracle with alarmCreateOk := false } baseWorld 3 false none).1
        = false ∧
      (AlarmManager.setup { okOracle with alarmCreateOk := false } baseWorld 3 false none).2.store.nextNotificationTime
        = none := ⟨rfl, rfl, rfl⟩

/-- C1 (amended): `setup` failures at the three pre-`cleanup` guards — an
inactive mirror, an interval outside `(0, maxSnoozeMinutes]`, or a truthy
explicit next time that is not strictly in the future — return failure
with the entire world untouched, so in particular the persisted
`nextNotificationTime` that was in place before the call remains in
place.  (A failure of the `chrome.alarms.create` call itself comes after
the unconditional `cleanup()` and therefore finds the persisted value
already replaced by null, as the counterexample shows.) -/
theorem setup_early_guard_preserves_persisted (o : Oracle) (w : World) (minutes : Int)
    (immediately : Bool) (nextTime : Option Int)
    (h : w.mem.isActive = false ∨ minutes ≤ 0 ∨ minutes > w.mem.maxSnoozeMinutes ∨
         (jsTruthyInt nextTime = true ∧ nextTime.getD 0 ≤ o.now)) :
    AlarmManager.setup o w minutes immediately nextTime = (false, w) := by
  rcases h with h | h | h | ⟨h1, h2⟩
  · simp [AlarmManager.setup, h]
  · simp [AlarmManager.setup, h]
  · simp [AlarmManager.setup, h]
  · simp [AlarmManager.setup, h1, h2]

/-- C1 amended witness: an inactive world keeps its persisted record. -/
theorem setup_early_guard_preserves_persisted_witness :
    AlarmManager.setup okOracle
        { baseWorld with mem := { baseWorld.mem with isActive := false } } 3 false none =
      (false, { baseWorld with mem := { baseWorld.mem with isActive := false } }) :=
  setup_early_guard_preserves_persisted okOracle
    { baseWorld with mem := { baseWorld.mem with isActive := false } } 3 false none
    (Or.inl rfl)

/-- The drift world for C2: a platform alarm scheduled at 500000 while the
mirror and store both persist 700000 (drift of 200000 ms, far beyond the
1000 ms tolerance). -/
def driftWorld : World :=
  { baseWorld with
      alarm := some ⟨500000, 3⟩
      mem := { DEFAULT_SETTINGS with nextNotificationTime := some 700000 }
      store := { DEFAULT_SETTINGS with nextNotificationTime := some 700000 } }

/-- C2 counterexample: on a drift beyond the tolerance the handler reports
`needsUpdate = true` but with the live alarm's fire time (500000) as the
corrected time, overwrites the persisted value (previously 700000) with
that alarm time, and leaves the platform alarm exactly as it was — it
does not treat the persisted value as authoritative and does not
re-create the platform alarm at the persisted time. -/
theorem verifyAlarm_drift_adopts_alarm_time :
    driftWorld.store.nextNotificationTime = some 700000 ∧
      (verifyAlarmHandler okOracle driftWorld).1.needsUpdate = some true ∧
      (verifyAlarmHandler okOracle driftWorld).1.correctTime = some (some 500000) ∧
      (verifyAlarmHandler okOracle driftWorld).2.alarm = some ⟨500000, 3⟩ ∧
      (verifyAlarmHandler okOracle driftWorld).2.store.nextNotificationTime = some 500000 :=
  ⟨rfl, rfl, rfl, rfl, rfl⟩

/-- C2 (amended): when the platform alarm exists and its scheduled fire
time differs from the mirrored `nextNotificationTime` by more than
1000 ms, the handler treats the live alarm as authoritative: it
overwrites the in-memory and (given a successful store write and an
otherwise valid record) persisted `nextNotificationTime` with the alarm's
`scheduledTime`, leaves the platform alarm untouched, and reports
`needsUpdate = true` together with the alarm's `scheduledTime` as the
corrected time. -/
theorem verifyAlarm_drift_spec (o : Oracle) (w : World) (a : AlarmInfo)
    (ha : w.alarm = some a)
    (hdrift : |a.scheduledTime - w.mem.nextNotificationTime.getD 0| > 1000)
    (hint : 0 < w.mem.notificationInterval)
    (hmax : w.mem.notificationInterval ≤ w.mem.maxSnoozeMinutes)
    (hpos : 0 ≤ a.scheduledTime)
    (hset : o.storeSetOk = true) :
    verifyAlarmHandler o w =
      ({ success := true, needsUpdate := some true
         correctTime := some (some a.scheduledTime) },
       { w with
           mem := { w.mem with nextNotificationTime := some a.scheduledTime }
           store := applyPatch w.store
             { nextNotificationTime := some (some a.scheduledTime) } }) := by
  have hval : isErr (validateSettings (applyPatch
      { w.mem with nextNotificationTime := some a.scheduledTime }
      { nextNotificationTime := some (some a.scheduledTime) })) = false := by
    rw [validateSettings_isErr_iff]
    refine ⟨hint, hmax, ?_⟩
    intro v hv
    simp only [applyPatch, Option.getD_some, Option.some.injEq] at hv
    omega
  simp only [verifyAlarmHandler, ha, StorageManager.updateSettings, hval,
    storageSetRetry, hset, hdrift]
  simp [applyPatch]

/-- A second drift world, for instantiating the amended C2 statement. -/
def driftWorld2 : World := { baseWorld with alarm := some ⟨600000, 3⟩ }

/-- C2 amended witness: a concrete drifted alarm is adopted into the
mirror and store. -/
theorem verifyAlarm_drift_spec_witness :
    verifyAlarmHandler okOracle driftWorld2 =
      ({ success := true, needsUpdate := some true
         correctTime := some (some 600000) },
       { driftWorld2 with
           mem := { driftWorld2.mem with nextNotificationTime := some 600000 }
           store := applyPatch driftWorld2.store
             { nextNotificationTime := some (some 600000) } }) :=
  verifyAlarm_drift_spec okOracle driftWorld2 ⟨600000, 3⟩ rfl (by decide) (by decide)
    (by decide) (by decide) rfl

/-- The C3 world: no platform alarm (cleared externally), `isActive = true`
and a persisted `nextNotificationTime` of 999000, which is in the past at
`now = 1000000`. -/
def missedWorld : World :=
  { baseWorld with
      mem := { DEFAULT_SETTINGS with nextNotificationTime := some 999000 }
      store := { DEFAULT_SETTINGS with nextNotificationTime := some 999000 } }

/-- C3 at its failing input: with the platform alarm absent, `isActive`
true and a past persisted `nextNotificationTime`, the `verifyAlarm`
handler replies `needsUpdate = true` with that past time as the corrected
time, but the `AlarmManager.setup` call it makes to re-create the alarm
rejects the past explicit next time ("Next time must be in the future")
and returns false — its result is ignored — so no platform alarm is
armed by the call, contradicting the claimed (and intended, per the
source's own "Recreate the alarm" comment) re-arming. -/
theorem verifyAlarm_missing_past_time_no_rearm :
    missedWorld.alarm = none ∧
      missedWorld.mem.isActive = true ∧
      missedWorld.mem.nextNotificationTime = some 999000 ∧
      (verifyAlarmHandler okOracle missedWorld).1.needsUpdate = some true ∧
      (verifyAlarmHandler okOracle missedWorld).1.correctTime = some (some 999000) ∧
      (verifyAlarmHandler okOracle missedWorld).2.alarm = none :=
  ⟨rfl, rfl, rfl, rfl, rfl, rfl⟩

/-- C8 counterexample: `minutes = 0` satisfies the claim's only
restriction (`minutes <= maxSnoozeMinutes`), yet `snooze(0)` fails and
arms no alarm — the persisted pair and time are recomputed and stored,
but the re-arm step rejects the non-positive interval — so the claim's
universally quantified re-arming does not hold for every
`minutes <= maxSnoozeMinutes`. -/
theorem snooze_zero_not_rearmed :
    (0 : Int) ≤ baseWorld.mem.maxSnoozeMinutes ∧
      (NotificationManager.snooze okOracle baseWorld 0).1 = false ∧
      (NotificationManager.snooze okOracle baseWorld 0).2.alarm = none :=
  ⟨by decide, rfl, rfl⟩

/-- C8 (amended): for every `minutes` with
`0 < minutes <= maxSnoozeMinutes` and previous
`defaultSnoozeOptions = [lo, hi]`, under succeeding storage writes and
alarm creation, `snooze(minutes)` succeeds, recomputes
`defaultSnoozeOptions` as the sorted pair
`[min(minutes, hi), max(minutes, hi)]`, persists the new pair together
with the new `nextNotificationTime = now + minutes*60000` (mirror and
store), and re-arms the platform alarm at exactly that time with period
`minutes`. -/
theorem snooze_spec (o : Oracle) (w : World) (minutes lo hi : Int)
    (hopts : w.mem.defaultSnoozeOptions = [lo, hi])
    (hact : w.mem.isActive = true)
    (hpos : 0 < minutes) (hmaxm : minutes ≤ w.mem.maxSnoozeMinutes)
    (hint : 0 < w.mem.notificationInterval)
    (hintmax : w.mem.notificationInterval ≤ w.mem.maxSnoozeMinutes)
    (hnow : 0 ≤ o.now)
    (hset : o.storeSetOk = true) (hcreate : o.alarmCreateOk = true) :
    NotificationManager.snooze o w minutes =
      (true,
       { w with
           alarm := some ⟨o.now + minutes * 60000, minutes⟩
           mem := applyPatch w.mem
             { nextNotificationTime := some (some (o.now + minutes * 60000))
               defaultSnoozeOptions := some [min minutes hi, max minutes hi] }
           store := applyPatch w.store
             { nextNotificationTime := some (some (o.now + minutes * 60000))
               defaultSnoozeOptions := some [min minutes hi, max minutes hi] } }) := by
  have hD : ¬ minutes ≤ 0 := by omega
  have hE : ¬ w.mem.maxSnoozeMinutes < minutes := by omega
  have htf : ¬ o.now + minutes * 60000 ≤ o.now := by omega
  have ht0 : ¬ o.now + minutes * 60000 = 0 := by omega
  have hC : ¬ o.now + minutes * 60000 < 0 := by omega
  have hA : ¬ w.mem.notificationInterval ≤ 0 := by omega
  have hB : ¬ w.mem.maxSnoozeMinutes < w.mem.notificationInterval := by omega
  simp [NotificationManager.snooze, StorageManager.updateSettings, storageSetRetry,
    AlarmManager.setup, AlarmManager.cleanup, validateSettings, isErr, applyPatch,
    jsTruthyInt, hopts, hact, hset, hcreate, hD, hE, htf, ht0, hC, hA, hB]

/-- C8 amended witness: `snooze(20)` when the options are `[5, 15]`
yields the new options `[15, 20]`, persists `now + 20*60000 = 2200000`,
and arms the alarm at 2200000 with period 20. -/
theorem snooze_spec_witness :
    NotificationManager.snooze okOracle baseWorld 20 =
      (true,
       { baseWorld with
           alarm := some ⟨2200000, 20⟩
           mem := applyPatch baseWorld.mem
             { nextNotificationTime := some (some 2200000)
               defaultSnoozeOptions := some [15, 20] }
           store := applyPatch baseWorld.store
             { nextNotificationTime := some (some 2200000)
               defaultSnoozeOptions := some [15, 20] } }) :=
  snooze_spec okOracle baseWorld 20 5 15 rfl rfl (by decide) (by decide) (by decide)
    (by decide) (by decide) rfl rfl

/-- C10: a snooze request with non-positive `minutes` passes the
dispatcher's only guard (`minutes <= maxSnoozeMinutes`) and
`snooze`'s own identical guard; `snooze` then persists the recomputed
options pair `[min(minutes, hi), hi] = [minutes, hi]` and the non-future
`nextNotificationTime = now + minutes*60000 <= now` to both the mirror
and the store, and only afterwards fails because `AlarmManager.setup`
rejects the non-positive interval — so the request returns a failure
envelope while the settings store and in-memory mirror stay mutated and
no alarm is touched: a failed snooze is not atomic. -/
theorem snooze_nonpositive_not_atomic (o : Oracle) (w : World) (minutes lo hi : Int)
    (hinit : w.isInitialized = true)
    (hopts : w.mem.defaultSnoozeOptions = [lo, hi])
    (hact : w.mem.isActive = true)
    (hnpos : minutes ≤ 0) (hhi : minutes ≤ hi)
    (hint : 0 < w.mem.notificationInterval)
    (hintmax : w.mem.notificationInterval ≤ w.mem.maxSnoozeMinutes)
    (hnn : 0 ≤ o.now + minutes * 60000)
    (hset : o.storeSetOk = true) :
    MessageHandler.handle o w (Request.snooze minutes) =
      (Reply.envelope
        { success := false, error := some "Failed to snooze notification" },
       { w with
           mem := applyPatch w.mem
             { nextNotificationTime := some (some (o.now + minutes * 60000))
               defaultSnoozeOptions := some [minutes, hi] }
           store := applyPatch w.store
             { nextNotificationTime := some (some (o.now + minutes * 60000))
               defaultSnoozeOptions := some [minutes, hi] } }) ∧
      o.now + minutes * 60000 ≤ o.now := by
  have hmin : min minutes hi = minutes := min_eq_left hhi
  have hmax2 : max minutes hi = hi := max_eq_right hhi
  have hE : ¬ w.mem.maxSnoozeMinutes < minutes := by omega
  have hg : minutes ≤ w.mem.maxSnoozeMinutes := by omega
  have hC : ¬ o.now + minutes * 60000 < 0 := by omega
  have hA : ¬ w.mem.notificationInterval ≤ 0 := by omega
  have hB : ¬ w.mem.maxSnoozeMinutes < w.mem.notificationInterval := by omega
  refine ⟨?_, by omega⟩
  simp [MessageHandler.handle, snoozeHandler, NotificationManager.snooze,
    StorageManager.updateSettings, storageSetRetry, AlarmManager.setup,
    validateSettings, isErr, applyPatch, jsTruthyInt, hinit, hopts, hact, hset,
    hmin, hmax2, hE, hg, hC, hA, hB, hnpos]

/-- C10 witness: `snooze(-5)` on the base world persists options
`[-5, 15]` and the past time 700000 yet replies with failure. -/
theorem snooze_nonpositive_not_atomic_witness :
    MessageHandler.handle okOracle baseWorld (Request.snooze (-5)) =
      (Reply.envelope
        { success := false, error := some "Failed to snooze notification" },
       { baseWorld with
           mem := applyPatch baseWorld.mem
             { nextNotificationTime := some (some 700000)
               defaultSnoozeOptions := some [-5, 15] }
           store := applyPatch baseWorld.store
             { nextNotificationTime := some (some 700000)
               defaultSnoozeOptions := some [-5, 15] } }) ∧
      (700000 : Int) ≤ 1000000 :=
  snooze_nonpositive_not_atomic okOracle baseWorld (-5) 5 15 rfl rfl rfl (by decide)
    (by decide) (by decide) (by decide) (by decide) rfl


/-- The retry loop performs at most `r` invocations of the operation. -/
theorem withRetryGo_calls_le {α : Type} (op : Nat → Except JsError α) (bd : Int) :
    ∀ r a last, (withRetryGo op bd a r last).calls ≤ r := by
  intro r
  induction r with
  | zero => intro a last; simp [withRetryGo]
  | succ n ih =>
    intro a last
    unfold withRetryGo
    cases h : op a with
    | ok v => simp
    | error e =>
      by_cases hn : n = 0
      · simp [hn]
      · simpa [hn] using ih (a + 1) (some e)

/-- Shifting the attempt index by one inside the sleeps list. -/
theorem sleeps_shift (bd : Int) (a m : Nat) :
    bd * 2 ^ a :: (List.range m).map (fun j => bd * 2 ^ (a + 1 + j)) =
      (List.range (m + 1)).map (fun j => bd * 2 ^ (a + j)) := by
  rw [List.range_succ_eq_map, List.map_cons, List.map_map]
  congr 1
  refine List.map_congr_left ?_
  intro j _
  have h : a + 1 + j = a + Nat.succ j := by omega
  simp [Function.comp, h]

/-- The retry loop returns the operation's result at the first successful
attempt (one invocation per preceding failed attempt plus the successful
one), having slept `bd * 2 ^ attempt` after each failed attempt. -/
theorem withRetryGo_first_ok {α : Type} (op : Nat → Except JsError α) (bd : Int) :
    ∀ r a last k v, k < r → (∀ j, j < k → isErr (op (a + j)) = true) →
      op (a + k) = Except.ok v →
      withRetryGo op bd a r last =
        ⟨Except.ok v, k + 1, (List.range k).map (fun j => bd * 2 ^ (a + j))⟩ := by
  intro r
  induction r with
  | zero => intro a last k v hk _ _; exact absurd hk (by omega)
  | succ n ih =>
    intro a last k v hk hfail hok
    cases k with
    | zero =>
      rw [Nat.add_zero] at hok
      unfold withRetryGo
      rw [hok]
      simp
    | succ m =>
      have he : isErr (op a) = true := by
        have h0 := hfail 0 (by omega)
        rwa [Nat.add_zero] at h0
      have hee : ∃ e, op a = Except.error e := by
        cases hop : op a with
        | ok v2 => rw [hop] at he; simp [isErr] at he
        | error e => exact ⟨e, rfl⟩
      obtain ⟨e, hee⟩ := hee
      have hn : ¬ n = 0 := by omega
      have hih := ih (a + 1) (some e) m v (by omega)
        (fun j hj => by
          have hf := hfail (j + 1) (by omega)
          have hx : a + (j + 1) = a + 1 + j := by omega
          rwa [hx] at hf)
        (by
          have hx : a + (m + 1) = a + 1 + m := by omega
          rw [← hx]; exact hok)
      unfold withRetryGo
      rw [hee]
      simp only [hn, if_false, hih]
      rw [sleeps_shift]

/-- When every attempt fails, the retry loop makes exactly `r` calls,
sleeps between all but the last, and rethrows the last failure. -/
theorem withRetryGo_all_fail {α : Type} (op : Nat → Except JsError α) (bd : Int) :
    ∀ r a last e, 1 ≤ r → (∀ j, j < r → isErr (op (a + j)) = true) →
      op (a + (r - 1)) = Except.error e →
      withRetryGo op bd a r last =
        ⟨Except.error (some e), r, (List.range (r - 1)).map (fun j => bd * 2 ^ (a + j))⟩ := by
  intro r
  induction r with
  | zero => intro a last e h1 _ _; exact absurd h1 (by omega)
  | succ n ih =>
    intro a last e _ hfail hlast
    by_cases hn : n = 0
    · subst hn
      rw [Nat.add_zero] at hlast
      unfold withRetryGo
      rw [hlast]
      simp
    · have he : isErr (op a) = true := by
        have h0 := hfail 0 (by omega)
        rwa [Nat.add_zero] at h0
      have hee : ∃ e0, op a = Except.error e0 := by
        cases hop : op a with
        | ok v2 => rw [hop] at he; simp [isErr] at he
        | error e0 => exact ⟨e0, rfl⟩
      obtain ⟨e0, hee⟩ := hee
      have hih := ih (a + 1) (some e0) e (by omega)
        (fun j hj => by
          have hf := hfail (j + 1) (by omega)
          have hx : a + (j + 1) = a + 1 + j := by omega
          rwa [hx] at hf)
        (by
          have hx : a + 1 + (n - 1) = a + (n + 1 - 1) := by omega
          rw [hx]; exact hlast)
      unfold withRetryGo
      rw [hee]
      simp only [hn, if_false, hih]
      have hm : n + 1 - 1 = (n - 1) + 1 := by omega
      rw [hm, ← sleeps_shift]

/-- C5: for every operation (modelled by the outcome of its k-th
invocation) and every total attempts count `n >= 1`, `withRetry` invokes
the operation at most `n` times; when the first success is at attempt `k`
(all earlier attempts failing) it returns that success after exactly
`k + 1` invocations, having slept `baseDelay * 2 ^ j` after the j-th
failed attempt for `j < k`; and when all `n` attempts fail it re-raises
the last attempt's failure after exactly `n` invocations, having slept
after each failed attempt but the last. -/
theorem withRetry_spec {α : Type} (op : Nat → Except JsError α) (bd : Int) (n : Nat)
    (hn : 1 ≤ n) :
    (withRetryRun op bd n).calls ≤ n ∧
      (∀ k v, k < n → (∀ j, j < k → isErr (op j) = true) → op k = Except.ok v →
        withRetryRun op bd n =
          ⟨Except.ok v, k + 1, (List.range k).map (fun j => bd * 2 ^ j)⟩) ∧
      (∀ e, (∀ j, j < n → isErr (op j) = true) → op (n - 1) = Except.error e →
        withRetryRun op bd n =
          ⟨Except.error (some e), n, (List.range (n - 1)).map (fun j => bd * 2 ^ j)⟩) := by
  refine ⟨withRetryGo_calls_le op bd n 0 none, ?_, ?_⟩
  · intro k v hk hfail hok
    have h := withRetryGo_first_ok op bd n 0 none k v hk
      (fun j hj => by simpa using hfail j hj) (by simpa using hok)
    simpa using h
  · intro e hfail hlast
    have h := withRetryGo_all_fail op bd n 0 none e hn
      (fun j hj => by simpa using hfail j hj) (by simpa using hlast)
    simpa using h

/-- A concrete stateful operation: fails at attempt 0, succeeds at
attempt 1. -/
def wopEx : Nat → Except JsError Nat :=
  fun k => if k = 1 then Except.ok 42 else Except.error "boom"

/-- C5 witness: with 3 attempts, base delay 7 and first success at
attempt 1, `withRetry` makes 2 calls, sleeps 7 ms once, and returns 42. -/
theorem withRetry_spec_witness :
    (withRetryRun wopEx 7 3).calls ≤ 3 ∧
      withRetryRun wopEx 7 3 = ⟨Except.ok 42, 2, [7]⟩ := by
  refine ⟨(withRetry_spec wopEx 7 3 (by decide)).1, ?_⟩
  have h := (withRetry_spec wopEx 7 3 (by decide)).2.1 1 42 (by decide)
    (by decide) rfl
  simpa using h

/-- The uniform envelope shape: a response either reports success or
carries an error message. -/
def envelopeOk (r : Response) : Bool := r.success || r.error.isSome

/-- Every `snooze` response is a well-formed envelope. -/
theorem snoozeHandler_envelope (o : Oracle) (w : World) (m : Int) :
    envelopeOk (snoozeHandler o w m).1 = true := by
  unfold snoozeHandler
  simp only [envelopeOk]
  split_ifs <;> simp

/-- Every `notification` response is a well-formed envelope. -/
theorem notificationHandler_envelope (o : Oracle) (w : World) (m : Int) :
    envelopeOk (notificationHandler o w m).1 = true := by
  unfold notificationHandler
  simp only [envelopeOk]
  split_ifs <;> simp

/-- Every `verifyAlarm` response is a well-formed envelope. -/
theorem verifyAlarmHandler_envelope (o : Oracle) (w : World) :
    envelopeOk (verifyAlarmHandler o w).1 = true := by
  unfold verifyAlarmHandler
  rcases h : w.alarm with _ | a <;> simp only [h, envelopeOk] <;> split_ifs <;> simp

/-- Every `getAlarmStatus` response is a well-formed envelope. -/
theorem getAlarmStatusHandler_envelope (o : Oracle) (w : World) :
    envelopeOk (getAlarmStatusHandler o w).1 = true := by
  simp [getAlarmStatusHandler, envelopeOk]

/-- Every `saveApiKey` response is a well-formed envelope. -/
theorem saveApiKeyHandler_envelope (o : Oracle) (w : World) (k : Option String) :
    envelopeOk (saveApiKeyHandler o w k).1 = true := by
  unfold saveApiKeyHandler
  simp only [envelopeOk]
  split_ifs <;> simp

/-- Every `toggle` response is a well-formed envelope. -/
theorem toggleHandler_envelope (o : Oracle) (w : World) (b : Bool) :
    envelopeOk (toggleHandler o w b).1 = true := by
  unfold toggleHandler
  simp only [envelopeOk]
  split_ifs <;> simp

/-- Every `updateSound` response is a well-formed envelope. -/
theorem updateSoundHandler_envelope (o : Oracle) (w : World) (b : Bool) :
    envelopeOk (updateSoundHandler o w b).1 = true := by
  unfold updateSoundHandler
  simp only [envelopeOk]
  split_ifs <;> simp

/-- Every `getSettings` response is a well-formed envelope. -/
theorem getSettingsHandler_envelope (o : Oracle) (w : World) :
    envelopeOk (getSettingsHandler o w).1 = true := by
  simp [getSettingsHandler, envelopeOk]

/-- Every `saveCustomPrompt` response is a well-formed envelope. -/
theorem saveCustomPromptHandler_envelope (o : Oracle) (w : World) (p : Option String) :
    envelopeOk (saveCustomPromptHandler o w p).1 = true := by
  unfold saveCustomPromptHandler
  simp only [envelopeOk]
  split_ifs <;> simp

/-- Every `setNextAlert` response is a well-formed envelope. -/
theorem setNextAlertHandler_envelope (o : Oracle) (w : World) (m : Int) :
    envelopeOk (setNextAlertHandler o w m).1 = true := by
  unfold setNextAlertHandler
  simp only [envelopeOk]
  split_ifs <;> simp

/-- A reply is the uniform envelope shape: an envelope whose response
either reports success or carries an error message. -/
def replyIsEnvelope : Reply -> Bool
  | Reply.envelope r => envelopeOk r
  | _ => false

/-- C9 counterexample: the action names "toString" and "constructor" are
not among the known handlers, yet the dispatcher does not reply with a
structured failure envelope: the prototype-chain lookup finds the
inherited `Object.prototype` members, so "toString" is answered with the
bare string `[object Undefined]` and "constructor" with the request
object echoed back. -/
theorem handle_prototype_lookup_not_envelope :
    (MessageHandler.handle okOracle baseWorld (Request.unknown "toString")).1 =
      Reply.jsString "[object Undefined]" /\
      (MessageHandler.handle okOracle baseWorld (Request.unknown "constructor")).1 =
        Reply.echoed (Request.unknown "constructor") := ⟨rfl, rfl⟩

/-- C9 (amended): for every known action, every parameter, every world and
every pattern of chrome-call outcomes, the dispatcher replies with a
structured envelope (success, or failure carrying an error message) and
never lets an exception escape — every handler body is embedded total,
each of its explicit throw sites funnelled into an envelope by that
handler's own catch.  An action name that is neither a handler-table key
nor an `Object.prototype` member yields exactly the structured failure
envelope with the "Unknown action requested" message.  But the handler
lookup falls through to `Object.prototype`: inherited members other than
`toString` and `constructor` throw a TypeError when invoked, which the
dispatcher's outer catch converts to an "Internal error: ..." envelope,
while `toString` and `constructor` produce non-envelope replies (the
counterexample). -/
theorem dispatcher_envelope_spec (o : Oracle) (w : World) (req : Request) (a : String) :
    ((∀ s : String, req ≠ Request.unknown s) ->
      replyIsEnvelope (MessageHandler.handle o w req).1 = true) /\
      (a ∉ handlerKeys -> a ∉ objectProtoMemberNames ->
        (MessageHandler.handle o w (Request.unknown a)).1 =
          Reply.envelope { success := false, error := some "Unknown action requested" }) /\
      (a ∈ inheritedThrowingNames ->
        (MessageHandler.handle o w (Request.unknown a)).1 =
          Reply.envelope
            { success := false, error := some ("Internal error: " ++ o.tyErrMsg a) }) := by
  refine ⟨?_, ?_, ?_⟩
  · intro hreq
    cases req with
    | snooze m =>
      simp [MessageHandler.handle, replyIsEnvelope, snoozeHandler_envelope]
    | notification m =>
      simp [MessageHandler.handle, replyIsEnvelope, notificationHandler_envelope]
    | verifyAlarm t =>
      simp [MessageHandler.handle, replyIsEnvelope, verifyAlarmHandler_envelope]
    | getAlarmStatus =>
      simp [MessageHandler.handle, replyIsEnvelope, getAlarmStatusHandler_envelope]
    | saveApiKey k =>
      simp [MessageHandler.handle, replyIsEnvelope, saveApiKeyHandler_envelope]
    | toggle b =>
      simp [MessageHandler.handle, replyIsEnvelope, toggleHandler_envelope]
    | updateSound b =>
      simp [MessageHandler.handle, replyIsEnvelope, updateSoundHandler_envelope]
    | getSettings =>
      simp [MessageHandler.handle, replyIsEnvelope, getSettingsHandler_envelope]
    | saveCustomPrompt p =>
      simp [MessageHandler.handle, replyIsEnvelope, saveCustomPromptHandler_envelope]
    | setNextAlert m =>
      simp [MessageHandler.handle, replyIsEnvelope, setNextAlertHandler_envelope]
    | unknown s => exact absurd rfl (hreq s)
  · intro _ h2
    have h3 : ¬ a = "toString" := by
      intro h
      exact h2 (by rw [h]; decide)
    have h4 : ¬ a = "constructor" := by
      intro h
      exact h2 (by rw [h]; decide)
    have h5 : ¬ a ∈ inheritedThrowingNames := fun h =>
      h2 (List.mem_cons_of_mem _ (List.mem_cons_of_mem _ h))
    simp [MessageHandler.handle, h3, h4, h5]
  · intro h
    have h3 : ¬ a = "toString" := by
      intro hh
      rw [hh] at h
      exact absurd h (by decide)
    have h4 : ¬ a = "constructor" := by
      intro hh
      rw [hh] at h
      exact absurd h (by decide)
    simp [MessageHandler.handle, h3, h4, h]

/-- C9 amended witness: a known action replies with a well-formed
envelope; a name absent from both the table and `Object.prototype` gets
the structured unknown-action failure; an inherited throwing member gets
the outer catch's internal-error envelope. -/
theorem dispatcher_envelope_spec_witness :
    replyIsEnvelope (MessageHandler.handle okOracle baseWorld Request.getSettings).1
        = true /\
      (MessageHandler.handle okOracle baseWorld (Request.unknown "frobnicate")).1 =
        Reply.envelope { success := false, error := some "Unknown action requested" } /\
      (MessageHandler.handle okOracle baseWorld (Request.unknown "valueOf")).1 =
        Reply.envelope
          { success := false
            error := some ("Internal error: " ++ okOracle.tyErrMsg "valueOf") } :=
  ⟨(dispatcher_envelope_spec okOracle baseWorld Request.getSettings "frobnicate").1
      (fun s h => Request.noConfusion h),
   (dispatcher_envelope_spec okOracle baseWorld Request.getSettings "frobnicate").2.1
      (by decide) (by decide),
   (dispatcher_envelope_spec okOracle baseWorld Request.getSettings "valueOf").2.2
      (by decide)⟩

/-- C4: the fire handler runs its four steps in the source's order —
(a) ensure the settings record is hydrated, (b) present the notification,
(c) `cleanup()`, (d) `setup()` again with the default interval — and each
of the two ways the chain can throw (a failed hydration, a re-arm that
reports failure) diverts, exactly after the steps already performed, into
the last-resort recovery sequence reset / re-initialize / re-arm, whose
reset step (when its storage calls succeed) really does reset the
in-memory settings record to the compiled-in defaults. -/
theorem onAlarm_fire_chain_order (o : Oracle) (w : World) :
    ((if w.isInitialized then (true, w) else StorageManager.initStorage o w).1 = false →
      onAlarmFired o w =
        (recoverW o (if w.isInitialized then (true, w) else StorageManager.initStorage o w).2,
         [Ev.ensure, Ev.resetE, Ev.reinitE, Ev.rearmE])) ∧
    ((if w.isInitialized then (true, w) else StorageManager.initStorage o w).1 = true →
      (AlarmManager.setupDefault o
        ((AlarmManager.cleanup o
          (NotificationManager.show o
            (if w.isInitialized then (true, w) else StorageManager.initStorage o w).2)).2)).1
          = true →
      onAlarmFired o w =
        ((AlarmManager.setupDefault o
            ((AlarmManager.cleanup o
              (NotificationManager.show o
                (if w.isInitialized then (true, w) else StorageManager.initStorage o w).2)).2)).2,
         [Ev.ensure, Ev.notify, Ev.cleanupE, Ev.setupE])) ∧
    ((if w.isInitialized then (true, w) else StorageManager.initStorage o w).1 = true →
      (AlarmManager.setupDefault o
        ((AlarmManager.cleanup o
          (NotificationManager.show o
            (if w.isInitialized then (true, w) else StorageManager.initStorage o w).2)).2)).1
          = false →
      onAlarmFired o w =
        (recoverW o
          (AlarmManager.setupDefault o
            ((AlarmManager.cleanup o
              (NotificationManager.show o
                (if w.isInitialized then (true, w) else StorageManager.initStorage o w).2)).2)).2,
         [Ev.ensure, Ev.notify, Ev.cleanupE, Ev.setupE, Ev.resetE, Ev.reinitE, Ev.rearmE])) ∧
    (∀ x : World, o.storeClearOk = true → o.storeSetOk = true →
      (StorageManager.reset o x).2.mem = DEFAULT_SETTINGS) := by
  refine ⟨?_, ?_, ?_, ?_⟩
  · intro h1
    simp only [onAlarmFired, h1]
    simp
  · intro h1 h2
    simp only [onAlarmFired, h1, h2]
    simp
  · intro h1 h2
    simp only [onAlarmFired, h1, h2]
    simp
  · intro x h1 h2
    simp [StorageManager.reset, h1, h2]

/-- C4 witness: on the hydrated base world with all calls succeeding, the
fire handler performs exactly ensure, notify, cleanup, setup, in order,
with no recovery. -/
theorem onAlarm_fire_chain_order_witness :
    onAlarmFired okOracle baseWorld =
      ((AlarmManager.setupDefault okOracle
          ((AlarmManager.cleanup okOracle
            (NotificationManager.show okOracle baseWorld)).2)).2,
       [Ev.ensure, Ev.notify, Ev.cleanupE, Ev.setupE]) :=
  (onAlarm_fire_chain_order okOracle baseWorld).2.1 rfl rfl
